import Mathlib

/-!
Verification of the MiniCash personal-finance tracker (`src/app.py`).

The development shallowly embeds the parts of the program the specification
talks about:

* `Dec` models Python `decimal.Decimal`: an arbitrary-precision integer
  coefficient together with a power-of-ten denominator.  Python `Decimal`
  arithmetic is exact, so every operation is given its exact meaning and
  `Dec.toRat` provides the numeric value as a rational number.
* Strings are embedded as `List Char`; `parse_decimal`, the date handling
  and the form handling follow `app.py` line by line.
* The database is embedded as a `Store` of lists; SQLAlchemy queries become
  list filters, `ORDER BY ... LIMIT` becomes sorting followed by `take`,
  and each Flask endpoint becomes a function from the request form and the
  store to the new store and an outcome (one constructor per flash
  message / redirect in the endpoint).
-/

/-! ### Exact decimals (Python `decimal.Decimal`) -/

/-- Exact decimal number `num / 10 ^ scale`, modelling Python
`decimal.Decimal` (integer coefficient and power-of-ten exponent). -/
structure Dec where
  num : Int
  scale : Nat
deriving DecidableEq

/-- The exact rational value of a `Dec`. -/
def Dec.toRat (d : Dec) : ℚ := (d.num : ℚ) / 10 ^ d.scale

/-- The decimal zero, `Decimal("0")`. -/
def Dec.zero : Dec := ⟨0, 0⟩

/-- Exact addition: align the two coefficients on the larger scale.  This is
what Python `Decimal.__add__` does (no rounding at these precisions). -/
def Dec.add (a b : Dec) : Dec :=
  ⟨a.num * 10 ^ (max a.scale b.scale - a.scale) +
     b.num * 10 ^ (max a.scale b.scale - b.scale),
   max a.scale b.scale⟩

/-- Exact negation. -/
def Dec.neg (a : Dec) : Dec := ⟨-a.num, a.scale⟩

/-- Exact subtraction. -/
def Dec.sub (a b : Dec) : Dec := a.add b.neg

/-- Numeric order on decimals, by cross-multiplying the denominators. -/
def Dec.le (a b : Dec) : Prop := a.num * 10 ^ b.scale ≤ b.num * 10 ^ a.scale

/-- Strict numeric order on decimals. -/
def Dec.lt (a b : Dec) : Prop := a.num * 10 ^ b.scale < b.num * 10 ^ a.scale

instance : LE Dec := ⟨Dec.le⟩

instance : LT Dec := ⟨Dec.lt⟩

instance (a b : Dec) : Decidable (a ≤ b) :=
  inferInstanceAs (Decidable (a.num * 10 ^ b.scale ≤ b.num * 10 ^ a.scale))

instance (a b : Dec) : Decidable (a < b) :=
  inferInstanceAs (Decidable (a.num * 10 ^ b.scale < b.num * 10 ^ a.scale))

/-- Pythonic truthiness of a decimal: `Decimal` is falsy exactly when its
value is zero, i.e. when its coefficient is zero. -/
def Dec.isZero (a : Dec) : Bool := a.num == 0

/-! ### String parsing (`parse_decimal` and Python `int`) -/

/-- Numeric value of a list of decimal digit characters, most significant
first (the usual base-10 reading). -/
def digitsToNat (l : List Char) : Nat :=
  l.foldl (fun n c => 10 * n + (c.toNat - 48)) 0

/-- Core of Python `Decimal(str)` on the grammar reachable from this
program: an unsigned numeral `digits`, `digits.digits`, `.digits` or
`digits.`, with at least one digit in total.  The coefficient and the
power-of-ten exponent are taken exactly as written, which is what
`decimal.Decimal` stores. -/
def decCore (t : List Char) : Option Dec :=
  let ip := t.takeWhile (fun c => c ≠ '.')
  match t.dropWhile (fun c => c ≠ '.') with
  | [] =>
    if !ip.isEmpty && ip.all Char.isDigit then some ⟨digitsToNat ip, 0⟩
    else none
  | _ :: fp =>
    if (ip.all Char.isDigit && fp.all Char.isDigit) &&
        (!ip.isEmpty || !fp.isEmpty) then
      some ⟨digitsToNat ip * 10 ^ fp.length + digitsToNat fp, fp.length⟩
    else none

/-- Python `Decimal(str)` on finite numerals: an optional sign followed by
the unsigned grammar of `decCore`; `none` models the `InvalidOperation`
raised on anything else. -/
def decParse (t : List Char) : Option Dec :=
  match t with
  | [] => none
  | c :: rest =>
    if c = '-' then (decCore rest).map (fun d => ⟨-d.num, d.scale⟩)
    else if c = '+' then decCore rest
    else decCore t

/-- The cleaning step of `parse_decimal` in `app.py`:
`raw.replace(" ", "").replace(",", ".")` — drop every space, then turn every
comma into a period. -/
def cleanRaw (s : List Char) : List Char :=
  (s.filter (fun c => c ≠ ' ')).map (fun c => if c = ',' then '.' else c)

/-- The helper `parse_decimal` of `app.py`: raises (`none`) on a missing
form field, otherwise cleans the string and parses it as an exact decimal. -/
def parse_decimal (raw : Option (List Char)) : Option Dec :=
  match raw with
  | none => none
  | some s => decParse (cleanRaw s)

/-- Python `int(str)` as used for `category_id`: optional surrounding
whitespace, an optional sign and a non-empty run of digits; `none` models
the `ValueError` on anything else. -/
def parseIntPy (t : List Char) : Option Int :=
  let t := (t.dropWhile (fun c => c = ' ')).reverse.dropWhile (fun c => c = ' ') |>.reverse
  match t with
  | [] => none
  | c :: rest =>
    if c = '-' then
      if !rest.isEmpty && rest.all Char.isDigit then some (-(digitsToNat rest : Int)) else none
    else if c = '+' then
      if !rest.isEmpty && rest.all Char.isDigit then some (digitsToNat rest : Int) else none
    else if (c :: rest).all Char.isDigit then some (digitsToNat (c :: rest) : Int)
    else none

/-- Python `str.strip()` for description fields: drop whitespace from both
ends (spaces suffice for the strings this program sees). -/
def pyStrip (t : List Char) : List Char :=
  (t.dropWhile (fun c => c = ' ')).reverse.dropWhile (fun c => c = ' ') |>.reverse

/-! ### Dates (Python `datetime.date`) -/

/-- A calendar date, as Python `datetime.date` (proleptic Gregorian,
representable years 1..9999). -/
structure Date where
  year : Nat
  month : Nat
  day : Nat
deriving DecidableEq

/-- Gregorian leap-year rule. -/
def isLeap (y : Nat) : Bool :=
  y % 4 == 0 && (y % 100 != 0 || y % 400 == 0)

/-- Number of days of month `m` of year `y`. -/
def daysInMonth (y m : Nat) : Nat :=
  if m == 2 then (if isLeap y then 29 else 28)
  else if m == 4 || m == 6 || m == 9 || m == 11 then 30
  else 31

/-- Python's representable date range: `date.min = date(1, 1, 1)` up to
`date.max = date(9999, 12, 31)`. -/
def Date.valid (d : Date) : Prop :=
  1 ≤ d.year ∧ d.year ≤ 9999 ∧ 1 ≤ d.month ∧ d.month ≤ 12 ∧
    1 ≤ d.day ∧ d.day ≤ daysInMonth d.year d.month

instance (d : Date) : Decidable d.valid := by
  unfold Date.valid
  infer_instance

/-- The earliest representable Python date, `date.min = date(1, 1, 1)`. -/
def dateMin : Date := ⟨1, 1, 1⟩

/-- Chronological order on dates (year, then month, then day). -/
def Date.before (a b : Date) : Prop :=
  a.year < b.year ∨ (a.year = b.year ∧
    (a.month < b.month ∨ (a.month = b.month ∧ a.day < b.day)))

instance (a b : Date) : Decidable (a.before b) := by
  unfold Date.before
  infer_instance

/-- The calendar day before `d` (how `date - timedelta(days=1)` moves over
month and year boundaries). -/
def Date.pred (d : Date) : Date :=
  if d.day > 1 then ⟨d.year, d.month, d.day - 1⟩
  else if d.month > 1 then ⟨d.year, d.month - 1, daysInMonth d.year (d.month - 1)⟩
  else ⟨d.year - 1, 12, 31⟩

/-- Python `date - timedelta(days=n)`: step back one calendar day `n`
times. -/
def Date.subDays (d : Date) (n : Nat) : Date := Date.pred^[n] d

/-- Number of days in the months of year `y` strictly before month `m`. -/
def daysBeforeMonth (y m : Nat) : Nat :=
  ((List.range (m - 1)).map (fun i => daysInMonth y (i + 1))).sum

/-- Python `date.toordinal()`: day number in the proleptic Gregorian
calendar, with `date(1, 1, 1).toordinal() = 1`. -/
def Date.toOrdinal (d : Date) : Nat :=
  365 * (d.year - 1) + (d.year - 1) / 4 - (d.year - 1) / 100 +
    (d.year - 1) / 400 + daysBeforeMonth d.year d.month + d.day

/-- The period-selector dispatch of the `dashboard` endpoint in `app.py`:
`week`, `month`, `year`, `all`, and everything else like `month`. -/
def startDate (period : String) (today : Date) : Date :=
  if period = "week" then today.subDays 7
  else if period = "month" then { today with day := 1 }
  else if period = "year" then { today with month := 1, day := 1 }
  else if period = "all" then ⟨1970, 1, 1⟩
  else { today with day := 1 }

/-- The start timestamp `datetime.combine(start_date, datetime.min.time())`
of the `dashboard` endpoint, on the timeline used for `created_at`
timestamps: seconds, day-aligned via the date's ordinal, so midnight of a
date is the smallest timestamp of that date. -/
def dtStart (period : String) (today : Date) : Int :=
  ((startDate period today).toOrdinal : Int) * 86400

/-! ### Data model (`users`, `categories`, `transactions` tables) -/

/-- Row of the `users` table (credential fields are irrelevant here and the
password hash is kept as an opaque string). -/
structure User where
  id : Int
  name : String
  email : String
  initial_balance : Option Dec
deriving DecidableEq

/-- Row of the `categories` table; `type` is the string column holding
`"income"` or `"expense"`. -/
structure Category where
  id : Int
  name : String
  type : String
  user_id : Int
deriving DecidableEq

/-- Row of the `transactions` table; `created_at` lives on the integer
timeline of `dtStart`. -/
structure Transaction where
  id : Int
  user_id : Int
  category_id : Int
  amount : Dec
  type : String
  description : Option (List Char)
  created_at : Int
deriving DecidableEq

/-- The whole relational store. -/
structure Store where
  users : List User
  categories : List Category
  transactions : List Transaction
deriving DecidableEq

/-! ### Dashboard aggregation -/

/-- Python `x or Decimal("0")` on an optional decimal: `None` and the
(falsy) zero decimal give `Decimal("0")`. -/
def pyOrZero (x : Option Dec) : Dec :=
  match x with
  | none => Dec.zero
  | some v => if v.isZero then Dec.zero else v

/-- Python `x or 0` on a decimal already in hand. -/
def pyOrZeroD (x : Dec) : Dec := if x.isZero then Dec.zero else x

/-- The `base_query` of the dashboard: the caller's transactions with
`created_at >= start_dt`. -/
def base_filter (uid start_dt : Int) (txs : List Transaction) : List Transaction :=
  txs.filter (fun t => t.user_id == uid && decide (start_dt ≤ t.created_at))

/-- The dashboard's `total_income`:
`coalesce(sum(amount), 0)` over the caller's income transactions in the
window (the empty sum is the SQL `NULL`, coalesced to 0). -/
def total_income (uid start_dt : Int) (txs : List Transaction) : Dec :=
  ((txs.filter (fun t =>
      t.user_id == uid && t.type == "income" && decide (start_dt ≤ t.created_at))).map
    (fun t => t.amount)).foldl Dec.add Dec.zero

/-- The dashboard's `total_expense`, symmetric to `total_income`. -/
def total_expense (uid start_dt : Int) (txs : List Transaction) : Dec :=
  ((txs.filter (fun t =>
      t.user_id == uid && t.type == "expense" && decide (start_dt ≤ t.created_at))).map
    (fun t => t.amount)).foldl Dec.add Dec.zero

/-- The `ORDER BY amount DESC` order: `a` may come before `b` when
`b.amount <= a.amount`. -/
def txGE (a b : Transaction) : Prop := b.amount ≤ a.amount

instance : DecidableRel txGE :=
  fun a b => inferInstanceAs (Decidable (b.amount ≤ a.amount))

instance : IsTotal Transaction txGE :=
  ⟨fun a b => Int.le_total
    (b.amount.num * 10 ^ a.amount.scale) (a.amount.num * 10 ^ b.amount.scale)⟩

instance : IsTrans Transaction txGE :=
  ⟨fun a b c hab hbc => by
    show Dec.le c.amount a.amount
    have hab' : b.amount.num * 10 ^ a.amount.scale
        ≤ a.amount.num * 10 ^ b.amount.scale := hab
    have hbc' : c.amount.num * 10 ^ b.amount.scale
        ≤ b.amount.num * 10 ^ c.amount.scale := hbc
    show c.amount.num * 10 ^ a.amount.scale ≤ a.amount.num * 10 ^ c.amount.scale
    have pa : (0 : Int) < 10 ^ a.amount.scale := pow_pos (by norm_num) _
    have pb : (0 : Int) < 10 ^ b.amount.scale := pow_pos (by norm_num) _
    have pc : (0 : Int) < 10 ^ c.amount.scale := pow_pos (by norm_num) _
    nlinarith [mul_le_mul_of_nonneg_right hab' (le_of_lt pc),
      mul_le_mul_of_nonneg_right hbc' (le_of_lt pa)]⟩

/-- `ORDER BY Transaction.amount DESC`, realised as a sort. -/
def orderByAmountDesc (l : List Transaction) : List Transaction :=
  List.insertionSort txGE l

/-- The aggregates the dashboard hands to its template (the fields the
specification speaks about). -/
structure DashboardData where
  balance : Dec
  total_income : Dec
  total_expense : Dec
  top_expenses : List Transaction
deriving DecidableEq

/-- The `dashboard` endpoint: `none` is the redirect to `setup_balance`
taken while `initial_balance` is `NULL`; otherwise the aggregates over the
window `[dtStart period today, ∞)`. -/
def dashboard (u : User) (period : String) (today : Date)
    (txs : List Transaction) : Option DashboardData :=
  match u.initial_balance with
  | none => none
  | some _ =>
    let start_dt := dtStart period today
    let ti := total_income u.id start_dt txs
    let te := total_expense u.id start_dt txs
    let balance := ((pyOrZero u.initial_balance).add (pyOrZeroD ti)).sub (pyOrZeroD te)
    let top := (orderByAmountDesc
      ((base_filter u.id start_dt txs).filter (fun t => t.type == "expense"))).take 5
    some ⟨balance, ti, te, top⟩

/-! ### Transaction mutation endpoints -/

/-- Storage into a PostgreSQL `Numeric(14, 2)` column (the type of
`transactions.amount` and `users.initial_balance`): the value is rounded to
2 fractional digits, half away from zero, and the insert fails with a
numeric-field-overflow error when the rounded value needs more than 12
integer digits (precision 14, scale 2).  `none` is that error; the
endpoints do not catch it, so it surfaces as an unhandled server error and
the session's pending change is not persisted. -/
def numeric14_2 (d : Dec) : Option Dec :=
  let c : Int :=
    if d.scale ≤ 2 then d.num * 10 ^ (2 - d.scale)
    else
      let p : Nat := 10 ^ (d.scale - 2)
      let m : Nat := (d.num.natAbs + p / 2) / p
      if d.num < 0 then -(m : Int) else (m : Int)
  if c.natAbs < 10 ^ 14 then some ⟨c, 2⟩ else none

/-- Outcome of a mutation endpoint, one constructor per flash message or
response: `notFound` is the `first_or_404`, `badAmount` flashes
"Некорректная сумма", `noCategory` flashes "Категория не выбрана",
`catNotFound` flashes "Категория не найдена", `dbError` is an unhandled
persistence failure at commit (server error, nothing persisted), `ok`
commits. -/
inductive MutResult
  | notFound
  | badAmount
  | noCategory
  | catNotFound
  | dbError
  | ok
deriving DecidableEq

/-- The form fields read by `add_transaction` / `edit_transaction`.  The
`date` field carries the `strptime(date_str, "%Y-%m-%d")` result on the
`created_at` timeline; `none` stands for a missing or unparseable date
string (the two cases the endpoints merge). -/
structure TxForm where
  type : Option String
  amount : Option (List Char)
  category_id : Option (List Char)
  description : List Char
  date : Option Int
deriving DecidableEq

/-- `Category.query.filter_by(id=..., user_id=..., type=...).first()`. -/
def findCategory (s : Store) (cid uid : Int) (type_ : String) : Option Category :=
  (s.categories.filter (fun c =>
    c.id == cid && c.user_id == uid && c.type == type_)).head?

/-- The `POST /transactions/add` endpoint.  `uid` is the session user,
`now` is `datetime.utcnow()`, `nextId` the id the database would assign. -/
def add_transaction (uid now nextId : Int) (form : TxForm) (s : Store) :
    Store × MutResult :=
  let type_ := form.type.getD "expense"
  match parse_decimal form.amount with
  | none => (s, .badAmount)
  | some amount =>
    if amount ≤ Dec.zero then (s, .badAmount)
    else
      let date_obj := form.date.getD now
      match form.category_id with
      | none => (s, .noCategory)
      | some cidStr =>
        match parseIntPy cidStr with
        | none => (s, .noCategory)
        | some cid =>
          match findCategory s cid uid type_ with
          | none => (s, .catNotFound)
          | some category =>
            let desc := pyStrip form.description
            match numeric14_2 amount with
            | none => (s, .dbError)
            | some stored =>
              ({ s with transactions := s.transactions ++
                  [{ id := nextId, user_id := uid, category_id := category.id,
                     amount := stored, type := type_,
                     description := if desc.isEmpty then none else some desc,
                     created_at := date_obj }] }, .ok)

/-- The `POST /transactions/<tx_id>/edit` endpoint (the GET branch only
renders the form and mutates nothing; the `first_or_404` lookup guards both
methods). -/
def edit_transaction (uid tx_id : Int) (form : TxForm) (s : Store) :
    Store × MutResult :=
  match (s.transactions.filter (fun t => t.id == tx_id && t.user_id == uid)).head? with
  | none => (s, .notFound)
  | some tx =>
    let type_ := form.type.getD tx.type
    match parse_decimal form.amount with
    | none => (s, .badAmount)
    | some amount =>
      if amount ≤ Dec.zero then (s, .badAmount)
      else
        let date_obj := form.date.getD tx.created_at
        match form.category_id with
        | none => (s, .noCategory)
        | some cidStr =>
          match parseIntPy cidStr with
          | none => (s, .noCategory)
          | some cid =>
            match findCategory s cid uid type_ with
            | none => (s, .catNotFound)
            | some category =>
              let desc := pyStrip form.description
              match numeric14_2 amount with
              | none => (s, .dbError)
              | some stored =>
                ({ s with transactions := s.transactions.map (fun t =>
                    if t.id == tx.id then
                      { t with
                        type := type_
                        amount := stored
                        category_id := category.id
                        description := if desc.isEmpty then none else some desc
                        created_at := date_obj }
                    else t) }, .ok)

/-- The `POST /transactions/<tx_id>/delete` endpoint. -/
def delete_transaction (uid tx_id : Int) (s : Store) : Store × MutResult :=
  match (s.transactions.filter (fun t => t.id == tx_id && t.user_id == uid)).head? with
  | none => (s, .notFound)
  | some tx =>
    ({ s with transactions := s.transactions.filter (fun t => t.id != tx.id) }, .ok)

/-! ### Account setup -/

/-- Outcome of the `setup-balance` endpoint: the redirect taken when the
balance is already set, the "Некорректный баланс" flash, a successful save,
an unhandled persistence failure at commit (the `initial_balance` column is
`Numeric(14, 2)` too), or the GET form page. -/
inductive SetupResult
  | redirectDashboard
  | invalid
  | saved
  | dbError
  | formPage
deriving DecidableEq

/-- The `/setup-balance` endpoint, acting on the session user's row; the
committed value goes through the `Numeric(14, 2)` column of
`users.initial_balance`. -/
def setup_balance (u : User) (isPost : Bool) (raw : Option (List Char)) :
    User × SetupResult :=
  match u.initial_balance with
  | some _ => (u, .redirectDashboard)
  | none =>
    if isPost then
      match parse_decimal raw with
      | none => (u, .invalid)
      | some amount =>
        match numeric14_2 amount with
        | none => (u, .dbError)
        | some stored => ({ u with initial_balance := some stored }, .saved)
    else (u, .formPage)

/-! ### Arithmetic facts about `Dec` -/

theorem Dec.toRat_zero : Dec.zero.toRat = 0 := by
  simp [Dec.toRat, Dec.zero]

theorem Dec.toRat_add (a b : Dec) : (a.add b).toRat = a.toRat + b.toRat := by
  have h10 : (10 : ℚ) ^ max a.scale b.scale ≠ 0 := by positivity
  have ha : (10 : ℚ) ^ a.scale ≠ 0 := by positivity
  have hb : (10 : ℚ) ^ b.scale ≠ 0 := by positivity
  have hsa : a.scale ≤ max a.scale b.scale := le_max_left _ _
  have hsb : b.scale ≤ max a.scale b.scale := le_max_right _ _
  have ea : (10 : ℚ) ^ (max a.scale b.scale - a.scale) * 10 ^ a.scale
      = 10 ^ max a.scale b.scale := by
    rw [← pow_add, Nat.sub_add_cancel hsa]
  have eb : (10 : ℚ) ^ (max a.scale b.scale - b.scale) * 10 ^ b.scale
      = 10 ^ max a.scale b.scale := by
    rw [← pow_add, Nat.sub_add_cancel hsb]
  simp only [Dec.add, Dec.toRat]
  push_cast
  field_simp
  linear_combination ((a.num : ℚ) * 10 ^ b.scale) * ea +
    ((b.num : ℚ) * 10 ^ a.scale) * eb

theorem Dec.toRat_neg (a : Dec) : a.neg.toRat = -a.toRat := by
  simp [Dec.toRat, Dec.neg, neg_div]

theorem Dec.toRat_sub (a b : Dec) : (a.sub b).toRat = a.toRat - b.toRat := by
  rw [Dec.sub, Dec.toRat_add, Dec.toRat_neg, sub_eq_add_neg]

theorem Dec.le_iff_toRat (a b : Dec) : a ≤ b ↔ a.toRat ≤ b.toRat := by
  show a.le b ↔ _
  rw [Dec.le, Dec.toRat, Dec.toRat,
    div_le_div_iff₀ (by positivity) (by positivity)]
  constructor
  · intro h
    exact_mod_cast h
  · intro h
    exact_mod_cast h

theorem Dec.lt_iff_toRat (a b : Dec) : a < b ↔ a.toRat < b.toRat := by
  show a.lt b ↔ _
  rw [Dec.lt, Dec.toRat, Dec.toRat,
    div_lt_div_iff₀ (by positivity) (by positivity)]
  constructor
  · intro h
    exact_mod_cast h
  · intro h
    exact_mod_cast h

theorem Dec.not_le_iff_lt (a b : Dec) : ¬ a ≤ b ↔ b < a := by
  rw [Dec.le_iff_toRat, Dec.lt_iff_toRat]
  exact not_le

theorem Dec.toRat_eq_zero_of_isZero (a : Dec) (h : a.isZero = true) :
    a.toRat = 0 := by
  have : a.num = 0 := by simpa [Dec.isZero] using h
  simp [Dec.toRat, this]

/-! ### Claim theorems -/

/-- C2, counterexample: on 2026-10-12 the `all` selector starts the window
at 1970-01-01, which is not the earliest representable date — `date.min`
is 0001-01-01 (`dateMin`), and e.g. 1969-12-31 is a representable date
strictly before the window start. -/
theorem startDate_all_not_earliest_representable :
    Date.valid ⟨1969, 12, 31⟩ ∧ Date.valid dateMin ∧
    Date.before ⟨1969, 12, 31⟩ (startDate "all" ⟨2026, 10, 12⟩) ∧
    startDate "all" ⟨2026, 10, 12⟩ ≠ dateMin := by decide

/-- C2, amended: the dashboard's period selector maps `week` to 7 days
before the current date, `month` to the first day of the current month,
`year` to the first day of the current year, `all` to 1970-01-01 (the Unix
epoch, not the earliest representable date), and any other selector to the
`month` behaviour. -/
theorem startDate_mapping (today : Date) (p : String)
    (hp : p ≠ "week" ∧ p ≠ "month" ∧ p ≠ "year" ∧ p ≠ "all") :
    startDate "week" today = today.subDays 7 ∧
    startDate "month" today = ⟨today.year, today.month, 1⟩ ∧
    startDate "year" today = ⟨today.year, 1, 1⟩ ∧
    startDate "all" today = ⟨1970, 1, 1⟩ ∧
    startDate p today = startDate "month" today := by
  obtain ⟨h1, h2, h3, h4⟩ := hp
  refine ⟨?_, ?_, ?_, ?_, ?_⟩
  · simp [startDate]
  · simp [startDate]
  · simp [startDate]
  · simp [startDate]
  · simp [startDate, h1, h2, h3, h4]

/-- C2, witness for the amended mapping at 2026-10-12 and the unknown
selector `decade`. -/
theorem startDate_mapping_witness :
    startDate "week" ⟨2026, 10, 12⟩ = Date.subDays ⟨2026, 10, 12⟩ 7 ∧
    startDate "month" ⟨2026, 10, 12⟩ = ⟨2026, 10, 1⟩ ∧
    startDate "year" ⟨2026, 10, 12⟩ = ⟨2026, 1, 1⟩ ∧
    startDate "all" ⟨2026, 10, 12⟩ = ⟨1970, 1, 1⟩ ∧
    startDate "decade" ⟨2026, 10, 12⟩ = startDate "month" ⟨2026, 10, 12⟩ :=
  startDate_mapping ⟨2026, 10, 12⟩ "decade" (by decide)

/-- C5: when the amount string fails to parse or parses to a value `≤ 0`,
`add_transaction` answers with the validation flash (`badAmount`) and the
stored state — transactions, categories and users alike — is exactly the
state before the request. -/
theorem add_transaction_rejects_nonpositive (uid now nextId : Int)
    (form : TxForm) (s : Store)
    (h : parse_decimal form.amount = none ∨
      ∃ v, parse_decimal form.amount = some v ∧ v ≤ Dec.zero) :
    add_transaction uid now nextId form s = (s, MutResult.badAmount) := by
  unfold add_transaction
  rcases h with h | ⟨v, hv, hle⟩
  · rw [h]
  · rw [hv]
    simp [hle]

/-- C5, witness: amount `-5` against an empty store. -/
theorem add_transaction_rejects_nonpositive_witness :
    add_transaction 1 0 10
      ⟨some "expense", some "-5".data, some "1".data, [], none⟩ ⟨[], [], []⟩ =
      (⟨[], [], []⟩, MutResult.badAmount) :=
  add_transaction_rejects_nonpositive 1 0 10 _ _
    (Or.inr ⟨⟨-5, 0⟩, by decide, by decide⟩)

/-- C6: when no transaction with the requested id belongs to the caller —
the id is unknown, or the row belongs to somebody else — both
`edit_transaction` and `delete_transaction` answer not-found and leave the
store untouched. -/
theorem edit_delete_not_owned_no_op (uid tx_id : Int) (form : TxForm)
    (s : Store)
    (h : ∀ t ∈ s.transactions, t.id = tx_id → t.user_id ≠ uid) :
    edit_transaction uid tx_id form s = (s, MutResult.notFound) ∧
    delete_transaction uid tx_id s = (s, MutResult.notFound) := by
  have hfil :
      s.transactions.filter (fun t => t.id == tx_id && t.user_id == uid) = [] := by
    rw [List.filter_eq_nil_iff]
    intro t ht
    simp only [Bool.and_eq_true, beq_iff_eq, not_and]
    exact h t ht
  refine ⟨?_, ?_⟩
  · unfold edit_transaction
    rw [hfil]
    rfl
  · unfold delete_transaction
    rw [hfil]
    rfl

/-- C6, witness: caller 1 attacks transaction 5 of user 2; both endpoints
answer not-found and the store is unchanged. -/
theorem edit_delete_not_owned_no_op_witness :
    edit_transaction 1 5 ⟨some "expense", some "9".data, some "1".data, [], none⟩
        ⟨[], [], [⟨5, 2, 1, ⟨10000, 2⟩, "expense", none, 0⟩]⟩ =
      (⟨[], [], [⟨5, 2, 1, ⟨10000, 2⟩, "expense", none, 0⟩]⟩, MutResult.notFound) ∧
    delete_transaction 1 5 ⟨[], [], [⟨5, 2, 1, ⟨10000, 2⟩, "expense", none, 0⟩]⟩ =
      (⟨[], [], [⟨5, 2, 1, ⟨10000, 2⟩, "expense", none, 0⟩]⟩, MutResult.notFound) :=
  edit_delete_not_owned_no_op 1 5 _ _ (by decide)

/-- C8: the initial balance is settable at most once — while it is set the
setup endpoint only redirects away, for GET and POST alike, changing
nothing — and while it is `NULL` every dashboard request is redirected to
the setup page (`none`) instead of computing aggregates. -/
theorem setup_once_and_dashboard_gate :
    (∀ (u : User) (isPost : Bool) (raw : Option (List Char)),
        u.initial_balance ≠ none →
        setup_balance u isPost raw = (u, SetupResult.redirectDashboard)) ∧
    (∀ (u : User) (period : String) (today : Date) (txs : List Transaction),
        u.initial_balance = none → dashboard u period today txs = none) := by
  constructor
  · intro u isPost raw h
    unfold setup_balance
    cases hub : u.initial_balance with
    | none => exact absurd hub h
    | some b => rfl
  · intro u period today txs h
    unfold dashboard
    rw [h]

/-- C8, witness: a user with balance already set is redirected away by a
POST carrying a new value, and a user without a balance gets no dashboard
data. -/
theorem setup_once_and_dashboard_gate_witness :
    setup_balance ⟨1, "a", "e", some ⟨100000, 2⟩⟩ true (some "5".data) =
      (⟨1, "a", "e", some ⟨100000, 2⟩⟩, SetupResult.redirectDashboard) ∧
    dashboard ⟨2, "b", "f", none⟩ "month" ⟨2026, 10, 12⟩ [] = none :=
  ⟨setup_once_and_dashboard_gate.1 _ true _ (by decide),
   setup_once_and_dashboard_gate.2 _ "month" ⟨2026, 10, 12⟩ [] rfl⟩

/-- C10, counterexample: storage is not verbatim and success is not
unconditional.  `"0,005"` parses to the exact value 0.005 but the
`Numeric(14, 2)` column stores 0.01 (a strictly larger value), and the
parseable 13-digit value `"1000000000000"` overflows the column, so the
request fails instead of saving. -/
theorem setup_balance_not_verbatim :
    parse_decimal (some "0,005".data) = some ⟨5, 3⟩ ∧
    setup_balance ⟨1, "n", "e", none⟩ true (some "0,005".data) =
      (⟨1, "n", "e", some ⟨1, 2⟩⟩, SetupResult.saved) ∧
    (⟨5, 3⟩ : Dec) < (⟨1, 2⟩ : Dec) ∧
    parse_decimal (some "1000000000000".data) = some ⟨1000000000000, 0⟩ ∧
    setup_balance ⟨2, "n", "e", none⟩ true (some "1000000000000".data) =
      (⟨2, "n", "e", none⟩, SetupResult.dbError) := by decide

/-- C10, amended: `setup_balance` performs no sign check — every value
`parse_decimal` accepts, zero and negatives included, is passed to storage
(the `amount > 0` rule lives only in the transaction endpoints); the value
is stored as its `Numeric(14, 2)` quantization and the request succeeds
whenever that rounded value fits the column, while an out-of-range value
fails the commit as a server error. -/
theorem setup_balance_no_sign_check (u : User) (raw : List Char) (v : Dec)
    (h0 : u.initial_balance = none)
    (hp : parse_decimal (some raw) = some v) :
    (∀ stored, numeric14_2 v = some stored →
      setup_balance u true (some raw) =
        ({ u with initial_balance := some stored }, SetupResult.saved)) ∧
    (numeric14_2 v = none →
      setup_balance u true (some raw) = (u, SetupResult.dbError)) := by
  constructor
  · intro stored hq
    unfold setup_balance
    rw [h0]
    simp [hp, hq]
  · intro hq
    unfold setup_balance
    rw [h0]
    simp [hp, hq]

/-- C10, witness: the negative balance `-100,50` and the zero balance `0`
are both accepted and stored (as 2-decimal column values). -/
theorem setup_balance_no_sign_check_witness :
    setup_balance ⟨1, "n", "e", none⟩ true (some "-100,50".data) =
      (⟨1, "n", "e", some ⟨-10050, 2⟩⟩, SetupResult.saved) ∧
    setup_balance ⟨2, "n", "e", none⟩ true (some "0".data) =
      (⟨2, "n", "e", some ⟨0, 2⟩⟩, SetupResult.saved) :=
  ⟨(setup_balance_no_sign_check ⟨1, "n", "e", none⟩ "-100,50".data ⟨-10050, 2⟩
      rfl (by decide)).1 ⟨-10050, 2⟩ (by decide),
   (setup_balance_no_sign_check ⟨2, "n", "e", none⟩ "0".data ⟨0, 0⟩
      rfl (by decide)).1 ⟨0, 2⟩ (by decide)⟩

/-- C3: the claim's invariant is the code's own intent — the endpoints
guard `amount <= 0` before committing — but the `Numeric(14, 2)` column
silently rounds on insert: the form amount `0,001` parses to the exact
value 0.001, passes the positivity guard, is committed successfully by
`add_transaction`, and is persisted as 0.00, which is not `> 0`; an edit
with amount `0,004` rounds an existing positive amount down to 0.00 the
same way.  The stored-state invariant the claim asserts is therefore
broken by the code. -/
theorem add_small_amount_persists_zero :
    parse_decimal (some "0,001".data) = some ⟨1, 3⟩ ∧
    Dec.zero < (⟨1, 3⟩ : Dec) ∧
    add_transaction 1 0 10
        ⟨some "expense", some "0,001".data, some "1".data, [], none⟩
        ⟨[], [⟨1, "Еда", "expense", 1⟩], []⟩ =
      (⟨[], [⟨1, "Еда", "expense", 1⟩],
          [⟨10, 1, 1, ⟨0, 2⟩, "expense", none, 0⟩]⟩, MutResult.ok) ∧
    edit_transaction 1 7
        ⟨some "expense", some "0,004".data, some "1".data, [], none⟩
        ⟨[], [⟨1, "Еда", "expense", 1⟩],
          [⟨7, 1, 1, ⟨500, 2⟩, "expense", none, 0⟩]⟩ =
      (⟨[], [⟨1, "Еда", "expense", 1⟩],
          [⟨7, 1, 1, ⟨0, 2⟩, "expense", none, 0⟩]⟩, MutResult.ok) ∧
    ¬ Dec.zero < (⟨0, 2⟩ : Dec) := by decide

/-- C7: a submitted `(category_id, type)` pair whose category exists and
belongs to the caller but carries the other type fails the
`filter_by(id, user_id, type)` lookup, so both endpoints answer with the
same "Категория не найдена" outcome (`catNotFound`) produced for a
nonexistent category id, and no transaction is written or modified. -/
theorem category_mismatch_same_not_found
    (uid now nextId tx_id : Int) (form : TxForm) (s : Store)
    (ty : String) (cidStr : List Char) (cid : Int) (amount : Dec)
    (tx : Transaction)
    (hty : form.type = some ty)
    (hamt : parse_decimal form.amount = some amount)
    (hpos : ¬ amount ≤ Dec.zero)
    (hcid : form.category_id = some cidStr)
    (hpi : parseIntPy cidStr = some cid)
    (_hexists : ∃ c ∈ s.categories, c.id = cid ∧ c.user_id = uid ∧ c.type ≠ ty)
    (hnomatch : ∀ c ∈ s.categories,
        ¬ (c.id = cid ∧ c.user_id = uid ∧ c.type = ty))
    (htx : (s.transactions.filter
        (fun t => t.id == tx_id && t.user_id == uid)).head? = some tx) :
    add_transaction uid now nextId form s = (s, MutResult.catNotFound) ∧
    edit_transaction uid tx_id form s = (s, MutResult.catNotFound) := by
  have hfind : findCategory s cid uid ty = none := by
    unfold findCategory
    rw [List.head?_eq_none_iff, List.filter_eq_nil_iff]
    intro c hc
    simp only [Bool.and_eq_true, beq_iff_eq]
    rintro ⟨⟨h1, h2⟩, h3⟩
    exact hnomatch c hc ⟨h1, h2, h3⟩
  constructor
  · unfold add_transaction
    rw [hty, hamt]
    simp only [Option.getD_some]
    rw [if_neg hpos, hcid]
    simp only []
    rw [hpi]
    simp only []
    rw [hfind]
  · unfold edit_transaction
    rw [htx]
    simp only []
    rw [hty, hamt]
    simp only [Option.getD_some]
    rw [if_neg hpos, hcid]
    simp only []
    rw [hpi]
    simp only []
    rw [hfind]

/-- C7, witness: category 1 of user 1 is an income category; submitting
type `expense` with `category_id = 1` is rejected as category-not-found by
both endpoints and the store stays as it was. -/
theorem category_mismatch_same_not_found_witness :
    add_transaction 1 0 10 ⟨some "expense", some "10".data, some "1".data, [], none⟩
        ⟨[], [⟨1, "Зарплата", "income", 1⟩],
          [⟨3, 1, 1, ⟨100, 0⟩, "income", none, 50⟩]⟩ =
      (⟨[], [⟨1, "Зарплата", "income", 1⟩],
          [⟨3, 1, 1, ⟨100, 0⟩, "income", none, 50⟩]⟩, MutResult.catNotFound) ∧
    edit_transaction 1 3 ⟨some "expense", some "10".data, some "1".data, [], none⟩
        ⟨[], [⟨1, "Зарплата", "income", 1⟩],
          [⟨3, 1, 1, ⟨100, 0⟩, "income", none, 50⟩]⟩ =
      (⟨[], [⟨1, "Зарплата", "income", 1⟩],
          [⟨3, 1, 1, ⟨100, 0⟩, "income", none, 50⟩]⟩, MutResult.catNotFound) :=
  category_mismatch_same_not_found 1 0 10 3 _ _ "expense" "1".data 1 ⟨10, 0⟩
    ⟨3, 1, 1, ⟨100, 0⟩, "income", none, 50⟩ rfl (by decide) (by decide) rfl
    (by decide) (by decide) (by decide) (by decide)

/-! ### Helper lemmas for the dashboard aggregates -/

theorem pyOrZero_some_toRat (b : Dec) : (pyOrZero (some b)).toRat = b.toRat := by
  show (if b.isZero = true then Dec.zero else b).toRat = b.toRat
  by_cases h : b.isZero = true
  · rw [if_pos h, Dec.toRat_zero, Dec.toRat_eq_zero_of_isZero b h]
  · rw [if_neg h]

theorem pyOrZeroD_toRat (x : Dec) : (pyOrZeroD x).toRat = x.toRat := by
  unfold pyOrZeroD
  by_cases h : x.isZero = true
  · rw [if_pos h, Dec.toRat_zero, Dec.toRat_eq_zero_of_isZero x h]
  · rw [if_neg h]

theorem foldl_add_toRat (l : List Dec) (init : Dec) :
    (l.foldl Dec.add init).toRat = init.toRat + (l.map Dec.toRat).sum := by
  induction l generalizing init with
  | nil => simp
  | cons a l ih =>
    simp only [List.foldl_cons, List.map_cons, List.sum_cons, ih,
      Dec.toRat_add]
    ring

theorem total_income_toRat (uid start_dt : Int) (txs : List Transaction) :
    (total_income uid start_dt txs).toRat =
      ((txs.filter (fun t => t.user_id == uid && t.type == "income" &&
          decide (start_dt ≤ t.created_at))).map
        (fun t => t.amount.toRat)).sum := by
  unfold total_income
  rw [foldl_add_toRat, Dec.toRat_zero, List.map_map]
  simp only [Function.comp_def, zero_add]

theorem total_expense_toRat (uid start_dt : Int) (txs : List Transaction) :
    (total_expense uid start_dt txs).toRat =
      ((txs.filter (fun t => t.user_id == uid && t.type == "expense" &&
          decide (start_dt ≤ t.created_at))).map
        (fun t => t.amount.toRat)).sum := by
  unfold total_expense
  rw [foldl_add_toRat, Dec.toRat_zero, List.map_map]
  simp only [Function.comp_def, zero_add]

/-- C1: for every user whose initial balance is set and every period
selector, the dashboard succeeds and its balance is exactly
`initial_balance + total_income − total_expense` in exact decimal (i.e.
rational) arithmetic, where each total is the exact sum of the amounts of
the user's income resp. expense transactions with timestamp at or after
the period's start — a sum that is zero when no such transaction exists
(the empty sum). -/
theorem dashboard_balance_formula (u : User) (b : Dec)
    (hb : u.initial_balance = some b) (period : String) (today : Date)
    (txs : List Transaction) :
    ∃ dd, dashboard u period today txs = some dd ∧
      dd.balance.toRat =
        b.toRat + (total_income u.id (dtStart period today) txs).toRat
          - (total_expense u.id (dtStart period today) txs).toRat ∧
      (total_income u.id (dtStart period today) txs).toRat =
        ((txs.filter (fun t => t.user_id == u.id && t.type == "income" &&
            decide (dtStart period today ≤ t.created_at))).map
          (fun t => t.amount.toRat)).sum ∧
      (total_expense u.id (dtStart period today) txs).toRat =
        ((txs.filter (fun t => t.user_id == u.id && t.type == "expense" &&
            decide (dtStart period today ≤ t.created_at))).map
          (fun t => t.amount.toRat)).sum := by
  have hdd : dashboard u period today txs = some
      ⟨((pyOrZero (some b)).add
          (pyOrZeroD (total_income u.id (dtStart period today) txs))).sub
        (pyOrZeroD (total_expense u.id (dtStart period today) txs)),
        total_income u.id (dtStart period today) txs,
        total_expense u.id (dtStart period today) txs,
        (orderByAmountDesc ((base_filter u.id (dtStart period today) txs).filter
          (fun t => t.type == "expense"))).take 5⟩ := by
    unfold dashboard
    rw [hb]
  refine ⟨_, hdd, ?_, total_income_toRat _ _ _, total_expense_toRat _ _ _⟩
  simp only [Dec.toRat_sub, Dec.toRat_add, pyOrZero_some_toRat, pyOrZeroD_toRat]

/-- C1, witness: the specification's own scenario — initial balance
1000.00, one 200.00 expense and one 500.00 income inside the month
window. -/
theorem dashboard_balance_formula_witness :
    ∃ dd, dashboard ⟨1, "u", "e", some ⟨100000, 2⟩⟩ "month" ⟨2026, 10, 12⟩
        [⟨1, 1, 1, ⟨20000, 2⟩, "expense", none, 63930000000⟩,
         ⟨2, 1, 2, ⟨50000, 2⟩, "income", none, 63930000000⟩] = some dd ∧
      dd.balance.toRat =
        (⟨100000, 2⟩ : Dec).toRat +
          (total_income 1 (dtStart "month" ⟨2026, 10, 12⟩)
            [⟨1, 1, 1, ⟨20000, 2⟩, "expense", none, 63930000000⟩,
             ⟨2, 1, 2, ⟨50000, 2⟩, "income", none, 63930000000⟩]).toRat -
          (total_expense 1 (dtStart "month" ⟨2026, 10, 12⟩)
            [⟨1, 1, 1, ⟨20000, 2⟩, "expense", none, 63930000000⟩,
             ⟨2, 1, 2, ⟨50000, 2⟩, "income", none, 63930000000⟩]).toRat ∧
      (total_income 1 (dtStart "month" ⟨2026, 10, 12⟩)
          [⟨1, 1, 1, ⟨20000, 2⟩, "expense", none, 63930000000⟩,
           ⟨2, 1, 2, ⟨50000, 2⟩, "income", none, 63930000000⟩]).toRat =
        ((([⟨1, 1, 1, ⟨20000, 2⟩, "expense", none, 63930000000⟩,
           ⟨2, 1, 2, ⟨50000, 2⟩, "income", none, 63930000000⟩] :
            List Transaction).filter
            (fun t => t.user_id == 1 && t.type == "income" &&
              decide (dtStart "month" ⟨2026, 10, 12⟩ ≤ t.created_at))).map
          (fun t => t.amount.toRat)).sum ∧
      (total_expense 1 (dtStart "month" ⟨2026, 10, 12⟩)
          [⟨1, 1, 1, ⟨20000, 2⟩, "expense", none, 63930000000⟩,
           ⟨2, 1, 2, ⟨50000, 2⟩, "income", none, 63930000000⟩]).toRat =
        ((([⟨1, 1, 1, ⟨20000, 2⟩, "expense", none, 63930000000⟩,
           ⟨2, 1, 2, ⟨50000, 2⟩, "income", none, 63930000000⟩] :
            List Transaction).filter
            (fun t => t.user_id == 1 && t.type == "expense" &&
              decide (dtStart "month" ⟨2026, 10, 12⟩ ≤ t.created_at))).map
          (fun t => t.amount.toRat)).sum :=
  dashboard_balance_formula ⟨1, "u", "e", some ⟨100000, 2⟩⟩ ⟨100000, 2⟩ rfl
    "month" ⟨2026, 10, 12⟩ _

/-- C4: the dashboard's top-expenses list has at most 5 entries, is sorted
descending by amount, contains only expense transactions of the caller
whose timestamp is at or after the window start, and is a largest-5
selection: the window's expense transactions are a permutation of the list
plus a remainder every element of which has amount at most that of every
listed entry — and the list has exactly 5 entries whenever the window holds
at least 5. -/
theorem dashboard_top_expenses (u : User) (period : String) (today : Date)
    (txs : List Transaction) (dd : DashboardData)
    (h : dashboard u period today txs = some dd) :
    dd.top_expenses.length ≤ 5 ∧
    List.Pairwise (fun a b => b.amount ≤ a.amount) dd.top_expenses ∧
    (∀ t ∈ dd.top_expenses, t.user_id = u.id ∧ t.type = "expense" ∧
      dtStart period today ≤ t.created_at) ∧
    (∃ rest,
      ((base_filter u.id (dtStart period today) txs).filter
          (fun t => t.type == "expense")).Perm (dd.top_expenses ++ rest) ∧
      ∀ x ∈ dd.top_expenses, ∀ y ∈ rest, y.amount ≤ x.amount) ∧
    (5 ≤ ((base_filter u.id (dtStart period today) txs).filter
        (fun t => t.type == "expense")).length → dd.top_expenses.length = 5) := by
  unfold dashboard at h
  cases hub : u.initial_balance with
  | none => rw [hub] at h; exact absurd h (by simp)
  | some b =>
    rw [hub] at h
    simp only [Option.some.injEq] at h
    set we := (base_filter u.id (dtStart period today) txs).filter
      (fun t => t.type == "expense") with hwe
    have htop : dd.top_expenses = (orderByAmountDesc we).take 5 := by
      rw [← h]
    have hsort : List.Pairwise txGE (orderByAmountDesc we) :=
      List.sorted_insertionSort txGE we
    have hperm : (orderByAmountDesc we).Perm we :=
      List.perm_insertionSort txGE we
    have hlen : (orderByAmountDesc we).length = we.length :=
      hperm.length_eq
    refine ⟨?_, ?_, ?_, ?_, ?_⟩
    · rw [htop, List.length_take]
      exact min_le_left _ _
    · rw [htop]
      exact List.Pairwise.sublist (List.take_sublist 5 _) hsort
    · intro t ht
      rw [htop] at ht
      have h1 : t ∈ orderByAmountDesc we := List.mem_of_mem_take ht
      have h2 : t ∈ we := hperm.mem_iff.mp h1
      rw [hwe] at h2
      have h3 := List.mem_filter.mp h2
      have h4 := List.mem_filter.mp h3.1
      refine ⟨?_, ?_, ?_⟩
      · have := h4.2
        simp only [Bool.and_eq_true, beq_iff_eq, decide_eq_true_eq] at this
        exact this.1
      · simpa using h3.2
      · have := h4.2
        simp only [Bool.and_eq_true, beq_iff_eq, decide_eq_true_eq] at this
        exact this.2
    · refine ⟨(orderByAmountDesc we).drop 5, ?_, ?_⟩
      · rw [htop, List.take_append_drop]
        exact hperm.symm
      · intro x hx y hy
        rw [htop] at hx
        have hs := hsort
        rw [← List.take_append_drop 5 (orderByAmountDesc we)] at hs
        exact (List.pairwise_append.mp hs).2.2 x hx y hy
    · intro h5
      rw [htop, List.length_take, hlen]
      exact Nat.min_eq_left h5

/-- Fixture for the C4 witness: six in-window expenses of user 1 (so more
than five), one income, one foreign expense, one out-of-window expense. -/
def wTxs : List Transaction :=
  [⟨1, 1, 1, ⟨1000, 2⟩, "expense", none, 62200000000⟩,
   ⟨2, 1, 1, ⟨2000, 2⟩, "expense", none, 62200000000⟩,
   ⟨3, 1, 1, ⟨500, 2⟩, "expense", none, 62200000000⟩,
   ⟨4, 1, 1, ⟨3000, 2⟩, "expense", none, 62200000000⟩,
   ⟨5, 1, 1, ⟨1500, 2⟩, "expense", none, 62200000000⟩,
   ⟨6, 1, 1, ⟨2500, 2⟩, "expense", none, 62200000000⟩,
   ⟨7, 1, 2, ⟨9999, 2⟩, "income", none, 62200000000⟩,
   ⟨8, 2, 3, ⟨7000, 2⟩, "expense", none, 62200000000⟩,
   ⟨9, 1, 1, ⟨8000, 2⟩, "expense", none, 0⟩]

/-- Fixture for the C4 witness: the user. -/
def wUser : User := ⟨1, "u", "e", some ⟨0, 0⟩⟩

/-- Fixture for the C4 witness: the dashboard data the endpoint computes on
`wTxs` for the `all` period on 2026-10-12. -/
def wDD : DashboardData :=
  ⟨⟨-501, 2⟩, ⟨9999, 2⟩, ⟨10500, 2⟩,
   [⟨4, 1, 1, ⟨3000, 2⟩, "expense", none, 62200000000⟩,
    ⟨6, 1, 1, ⟨2500, 2⟩, "expense", none, 62200000000⟩,
    ⟨2, 1, 1, ⟨2000, 2⟩, "expense", none, 62200000000⟩,
    ⟨5, 1, 1, ⟨1500, 2⟩, "expense", none, 62200000000⟩,
    ⟨1, 1, 1, ⟨1000, 2⟩, "expense", none, 62200000000⟩]⟩

/-- C4, witness: on `wTxs` the computed top-expenses list is the five
largest of the six in-window expenses, descending. -/
theorem dashboard_top_expenses_witness :
    wDD.top_expenses.length ≤ 5 ∧
    List.Pairwise (fun a b => b.amount ≤ a.amount) wDD.top_expenses ∧
    (∀ t ∈ wDD.top_expenses, t.user_id = wUser.id ∧ t.type = "expense" ∧
      dtStart "all" ⟨2026, 10, 12⟩ ≤ t.created_at) ∧
    (∃ rest,
      ((base_filter wUser.id (dtStart "all" ⟨2026, 10, 12⟩) wTxs).filter
          (fun t => t.type == "expense")).Perm (wDD.top_expenses ++ rest) ∧
      ∀ x ∈ wDD.top_expenses, ∀ y ∈ rest, y.amount ≤ x.amount) ∧
    (5 ≤ ((base_filter wUser.id (dtStart "all" ⟨2026, 10, 12⟩) wTxs).filter
        (fun t => t.type == "expense")).length → wDD.top_expenses.length = 5) :=
  dashboard_top_expenses wUser "all" ⟨2026, 10, 12⟩ wTxs wDD (by decide)

/-! ### Helper lemmas for decimal parsing -/

theorem isDigit_ne_specials (c : Char) (h : c.isDigit = true) :
    c ≠ '.' ∧ c ≠ '-' ∧ c ≠ '+' ∧ c ≠ ' ' ∧ c ≠ ',' := by
  refine ⟨?_, ?_, ?_, ?_, ?_⟩ <;> (rintro rfl; exact absurd h (by decide))

theorem takeWhile_dropWhile_dot (ip fp : List Char)
    (h : ∀ c ∈ ip, c ≠ '.') :
    (ip ++ '.' :: fp).takeWhile (fun c => c ≠ '.') = ip ∧
    (ip ++ '.' :: fp).dropWhile (fun c => c ≠ '.') = '.' :: fp := by
  induction ip with
  | nil => constructor <;> simp [List.takeWhile, List.dropWhile]
  | cons a l ih =>
    have ha : a ≠ '.' := h a (List.mem_cons_self a l)
    have hl : ∀ c ∈ l, c ≠ '.' := fun c hc => h c (List.mem_cons_of_mem a hc)
    constructor
    · simp only [List.cons_append, List.takeWhile_cons]
      rw [if_pos (by simp [ha]), (ih hl).1]
    · simp only [List.cons_append, List.dropWhile_cons]
      rw [if_pos (by simp [ha]), (ih hl).2]

theorem cleanRaw_fixed (t : List Char) (h : ∀ c ∈ t, c ≠ ' ' ∧ c ≠ ',') :
    cleanRaw t = t := by
  induction t with
  | nil => rfl
  | cons a l ih =>
    obtain ⟨h1, h2⟩ := h a (List.mem_cons_self a l)
    have hl := fun c hc => h c (List.mem_cons_of_mem a hc)
    unfold cleanRaw at ih ⊢
    rw [List.filter_cons, if_pos (by simp [h1]), List.map_cons, if_neg h2,
      ih hl]

theorem cleanRaw_mem (s : List Char) (c : Char) (hc : c ∈ cleanRaw s) :
    c ≠ ' ' ∧ c ≠ ',' := by
  unfold cleanRaw at hc
  rcases List.mem_map.mp hc with ⟨a, ha, rfl⟩
  have ha' := List.mem_filter.mp ha
  by_cases h : a = ','
  · rw [if_pos h]
    exact ⟨by decide, by decide⟩
  · rw [if_neg h]
    refine ⟨?_, h⟩
    simpa using ha'.2

theorem cleanRaw_idem (s : List Char) : cleanRaw (cleanRaw s) = cleanRaw s :=
  cleanRaw_fixed _ (fun c hc => cleanRaw_mem s c hc)

theorem takeWhile_dropWhile_nodot (l : List Char) (h : ∀ c ∈ l, c ≠ '.') :
    l.takeWhile (fun c => c ≠ '.') = l ∧
    l.dropWhile (fun c => c ≠ '.') = [] := by
  induction l with
  | nil => exact ⟨rfl, rfl⟩
  | cons a l ih =>
    have ha : a ≠ '.' := h a (List.mem_cons_self a l)
    have hl : ∀ c ∈ l, c ≠ '.' := fun c hc => h c (List.mem_cons_of_mem a hc)
    constructor
    · simp only [List.takeWhile_cons]
      rw [if_pos (by simp [ha]), (ih hl).1]
    · simp only [List.dropWhile_cons]
      rw [if_pos (by simp [ha]), (ih hl).2]

theorem decCore_fraction (ip fp : List Char) (hne : ip ≠ [] ∨ fp ≠ [])
    (hipd : ∀ c ∈ ip, c.isDigit = true) (hfpd : ∀ c ∈ fp, c.isDigit = true) :
    decCore (ip ++ '.' :: fp) =
      some ⟨digitsToNat ip * 10 ^ fp.length + digitsToNat fp, fp.length⟩ := by
  have hwd := takeWhile_dropWhile_dot ip fp
    (fun c hc => (isDigit_ne_specials c (hipd c hc)).1)
  have hcond : ((ip.all Char.isDigit && fp.all Char.isDigit) &&
      (!ip.isEmpty || !fp.isEmpty)) = true := by
    simp only [Bool.and_eq_true, Bool.or_eq_true, Bool.not_eq_true',
      List.all_eq_true]
    refine ⟨⟨hipd, hfpd⟩, ?_⟩
    rcases hne with h | h
    · exact Or.inl (by simp [List.isEmpty_iff, h])
    · exact Or.inr (by simp [List.isEmpty_iff, h])
  simp only [decCore]
  rw [hwd.2]
  simp only []
  rw [hwd.1, if_pos hcond]

theorem decCore_int (ip : List Char) (hip : ip ≠ [])
    (hipd : ∀ c ∈ ip, c.isDigit = true) :
    decCore ip = some ⟨digitsToNat ip, 0⟩ := by
  have hwd := takeWhile_dropWhile_nodot ip
    (fun c hc => (isDigit_ne_specials c (hipd c hc)).1)
  have hcond : (!ip.isEmpty && ip.all Char.isDigit) = true := by
    simp only [Bool.and_eq_true, Bool.not_eq_true', List.all_eq_true]
    exact ⟨by simp [List.isEmpty_iff, hip], hipd⟩
  simp only [decCore]
  rw [hwd.2]
  simp only []
  rw [hwd.1, if_pos hcond]

theorem decParse_nosign (t : List Char) (c : Char) (hhead : t.head? = some c)
    (hcd : c.isDigit = true ∨ c = '.') :
    decParse t = decCore t := by
  cases t with
  | nil => simp at hhead
  | cons a rest =>
    have hac : a = c := by simpa using hhead
    subst hac
    have hc1 : a ≠ '-' := by
      rcases hcd with h | h
      · exact (isDigit_ne_specials a h).2.1
      · rw [h]; decide
    have hc2 : a ≠ '+' := by
      rcases hcd with h | h
      · exact (isDigit_ne_specials a h).2.2.1
      · rw [h]; decide
    simp only [decParse]
    rw [if_neg hc1, if_neg hc2]

/-- C9: `parse_decimal` on every locale form — grouping spaces anywhere, a
comma or a period as decimal separator, an optional sign, with or without a
fractional part — returns exactly what the plain period-and-no-spaces form
returns, and that value is the exact rational written by the digits, with
no binary-float rounding.  Conjunct one is the general round-trip (the
cleaned string IS the plain form, and parsing is invariant under
cleaning); the rest pin the exact value on the full grammar: unsigned
`ip.fp` (either side possibly empty), unsigned integers such as "1 234",
and the `-`/`+` signed forms such as "-1 234,56". -/
theorem parse_decimal_locale :
    (∀ s : List Char,
      parse_decimal (some s) = parse_decimal (some (cleanRaw s))) ∧
    (∀ s ip fp : List Char, cleanRaw s = ip ++ '.' :: fp →
      ip ≠ [] ∨ fp ≠ [] →
      (∀ c ∈ ip, c.isDigit = true) → (∀ c ∈ fp, c.isDigit = true) →
      parse_decimal (some s) =
        some ⟨digitsToNat ip * 10 ^ fp.length + digitsToNat fp, fp.length⟩ ∧
      (⟨digitsToNat ip * 10 ^ fp.length + digitsToNat fp,
          fp.length⟩ : Dec).toRat =
        (digitsToNat ip : ℚ) + (digitsToNat fp : ℚ) / 10 ^ fp.length) ∧
    (∀ s ip : List Char, cleanRaw s = ip → ip ≠ [] →
      (∀ c ∈ ip, c.isDigit = true) →
      parse_decimal (some s) = some ⟨digitsToNat ip, 0⟩ ∧
      (⟨(digitsToNat ip : Int), 0⟩ : Dec).toRat = (digitsToNat ip : ℚ)) ∧
    (∀ (s t : List Char) (c : Char) (v : Dec), cleanRaw s = '-' :: t →
      t.head? = some c → (c.isDigit = true ∨ c = '.') →
      parse_decimal (some t) = some v →
      parse_decimal (some s) = some ⟨-v.num, v.scale⟩ ∧
      (⟨-v.num, v.scale⟩ : Dec).toRat = -v.toRat) ∧
    (∀ (s t : List Char) (c : Char) (v : Dec), cleanRaw s = '+' :: t →
      t.head? = some c → (c.isDigit = true ∨ c = '.') →
      parse_decimal (some t) = some v →
      parse_decimal (some s) = some v) := by
  refine ⟨?_, ?_, ?_, ?_, ?_⟩
  · intro s
    show decParse (cleanRaw s) = decParse (cleanRaw (cleanRaw s))
    rw [cleanRaw_idem]
  · intro s ip fp hclean hne hipd hfpd
    have hcore := decCore_fraction ip fp hne hipd hfpd
    have hparse : decParse (ip ++ '.' :: fp) =
        some ⟨digitsToNat ip * 10 ^ fp.length + digitsToNat fp, fp.length⟩ := by
      cases ip with
      | nil =>
        rw [List.nil_append] at hcore ⊢
        rw [decParse_nosign ('.' :: fp) '.' rfl (Or.inr rfl)]
        exact hcore
      | cons a ip' =>
        rw [decParse_nosign ((a :: ip') ++ '.' :: fp) a rfl
          (Or.inl (hipd a (List.mem_cons_self a ip')))]
        exact hcore
    constructor
    · show decParse (cleanRaw s) = _
      rw [hclean]
      exact hparse
    · unfold Dec.toRat
      push_cast
      have h10 : ((10 : ℚ) ^ fp.length) ≠ 0 := by positivity
      field_simp
  · intro s ip hclean hip hipd
    have hcore := decCore_int ip hip hipd
    constructor
    · show decParse (cleanRaw s) = _
      rw [hclean]
      cases ip with
      | nil => exact absurd rfl hip
      | cons a ip' =>
        rw [decParse_nosign (a :: ip') a rfl
          (Or.inl (hipd a (List.mem_cons_self a ip')))]
        exact hcore
    · simp [Dec.toRat]
  · intro s t c v hclean hhead hcd hpt
    have htclean : cleanRaw t = t := by
      apply cleanRaw_fixed
      intro x hx
      apply cleanRaw_mem s
      rw [hclean]
      exact List.mem_cons_of_mem _ hx
    have hdp : decParse t = some v := by
      have hh : parse_decimal (some t) = decParse (cleanRaw t) := rfl
      rw [htclean] at hh
      rw [← hh]
      exact hpt
    have hdc : decCore t = some v := by
      rw [← decParse_nosign t c hhead hcd]
      exact hdp
    constructor
    · show decParse (cleanRaw s) = _
      rw [hclean]
      simp only [decParse]
      rw [if_pos trivial, hdc]
      rfl
    · simp [Dec.toRat, neg_div]
  · intro s t c v hclean hhead hcd hpt
    have htclean : cleanRaw t = t := by
      apply cleanRaw_fixed
      intro x hx
      apply cleanRaw_mem s
      rw [hclean]
      exact List.mem_cons_of_mem _ hx
    have hdp : decParse t = some v := by
      have hh : parse_decimal (some t) = decParse (cleanRaw t) := rfl
      rw [htclean] at hh
      rw [← hh]
      exact hpt
    have hdc : decCore t = some v := by
      rw [← decParse_nosign t c hhead hcd]
      exact hdp
    show decParse (cleanRaw s) = _
    rw [hclean]
    simp only [decParse]
    rw [if_pos trivial]
    exact hdc

/-- C9, witness: `"1 234,56"` parses like its cleaned plain form, to
exactly `1234 + 56/100`; the separator-free `"1 234"` parses to `1234`; and
the signed `"-1 234,56"` parses to `-1234.56`. -/
theorem parse_decimal_locale_witness :
    parse_decimal (some "1 234,56".data) =
      parse_decimal (some (cleanRaw "1 234,56".data)) ∧
    parse_decimal (some "1 234,56".data) =
      some ⟨digitsToNat "1234".data * 10 ^ "56".data.length +
        digitsToNat "56".data, "56".data.length⟩ ∧
    parse_decimal (some "1 234".data) = some ⟨digitsToNat "1234".data, 0⟩ ∧
    parse_decimal (some "-1 234,56".data) = some ⟨-123456, 2⟩ :=
  ⟨parse_decimal_locale.1 "1 234,56".data,
   (parse_decimal_locale.2.1 "1 234,56".data "1234".data "56".data
      (by decide) (Or.inl (by decide)) (by decide) (by decide)).1,
   (parse_decimal_locale.2.2.1 "1 234".data "1234".data (by decide)
      (by decide) (by decide)).1,
   (parse_decimal_locale.2.2.2.1 "-1 234,56".data "1234.56".data
      '1' ⟨123456, 2⟩ (by decide) (by decide) (Or.inl (by decide))
      (by decide)).1⟩
